import Mathlib

/-!
# The notes gateway resolver (`pkg/gateway/graphql.go`)

A shallow embedding of the GraphQL resolver methods `Search`, `Notes`,
`CreateNote`, `DeleteNote`, `UpdateNote` and of the helpers `ParseFromAndTo`
and `pointerToString`.

Conventions of the embedding.

* A Go pointer `*T` is an `Option T`; `nil` is `none`.
* A Go slice is a `List`; the nil slice and the empty slice are both `[]`.
* A finite `float64` is a pair mantissa / binary exponent, see `Float64`.
* The collaborators (notes service, search client, publishers) are functions
  from the request to the reply.  Every resolver method returns a `Run`: the
  sequence of collaborator calls it issued, in order, and how it ended
  (a returned value, a run-time panic, or the fatal logger call).
-/

namespace Gateway

/-! ## Data model -/

/-- Modelled from the spec: the protobuf `timestamp.Timestamp` record, whose
declaration is outside the sources: whole seconds and a nanosecond part. -/
structure Timestamp where
  Seconds : Int
  Nanos : Int
deriving DecidableEq, Repr

/-- A finite `float64` value: the number `mant * 2 ^ exp`.  Every finite double
has this form (with `|mant| < 2 ^ 53`); the double nearest to `5.9` is
`3321404725185741 * 2 ^ (-49)`, the one nearest to `10.1` is
`5685794529555251 * 2 ^ (-49)`. -/
structure Float64 where
  mant : Int
  exp : Int
deriving DecidableEq, Repr

/-- The rational number a `Float64` denotes. -/
def Float64.toRat (x : Float64) : ℚ := (x.mant : ℚ) * (2 : ℚ) ^ x.exp

/-- The integer obtained from `mant * 2 ^ exp` by discarding the fraction
(rounding toward zero). -/
def Float64.trunc (x : Float64) : Int :=
  match x.exp with
  | Int.ofNat e => x.mant * Int.ofNat (2 ^ e)
  | Int.negSucc e => Int.tdiv x.mant (Int.ofNat (2 ^ (e + 1)))

/-- Least value of a Go `int64`. -/
def minInt64 : Int := -9223372036854775808

/-- Greatest value of a Go `int64`. -/
def maxInt64 : Int := 9223372036854775807

/-- The Go conversion `int64(f)` of a `float64`: the fraction is discarded.
When the result does not fit, Go leaves the value to the implementation; the
value produced on amd64 (the least `int64`) is used here. -/
def int64 (x : Float64) : Int :=
  if minInt64 ≤ x.trunc ∧ x.trunc ≤ maxInt64 then x.trunc else minInt64

/-- Modelled from the spec: the `npb.Note` record of `pkg/notes`, whose
declaration is outside the sources.  Strings default to the empty string, the
two dates are pointers to timestamps, `Image` is the raw byte payload (kept as
the string holding the same bytes). -/
structure Note where
  Id : String := ""
  Title : String := ""
  Body : String := ""
  Author : String := ""
  Team : String := ""
  DateCreated : Option Timestamp := none
  DateModified : Option Timestamp := none
  Type_ : String := ""
  Link : String := ""
  Image : String := ""
  Tags : List String := []
deriving DecidableEq, Repr

/-- Modelled from the spec: the `npb.NoteList` record of `pkg/notes`: a slice
of note pointers. -/
structure NoteList where
  Notes : List (Option Note) := []
deriving DecidableEq, Repr

/-- Modelled from the spec: the `npb.Query` record of `pkg/notes` (the backend
list filter), with the fields the resolver sets. -/
structure Query where
  IDs : List String := []
  Title : String := ""
  Team : String := ""
  Authors : List String := []
  Todate : Option Timestamp := none
  Fromdate : Option Timestamp := none
deriving DecidableEq, Repr

/-- Modelled from the spec: the `search.SearchQuery` record of `pkg/search`;
only the free-text field is set by the resolver. -/
structure SearchQuery where
  Query : String := ""
deriving DecidableEq, Repr

/-- A Go `error` value, by its message. -/
abbrev Error := String

/-- A value stored in a `context.Context`: a string, or something else. -/
inductive CtxVal where
  | str (s : String)
  | other
deriving DecidableEq, Repr

/-- The request context: `ctx.Value(key)`; `none` is the nil interface. -/
structure Context where
  Value : String → Option CtxVal

/-- The type assertion `v.(string)`; `none` is the run-time panic raised when
the interface value is nil or holds no string. -/
def assertString (v : Option CtxVal) : Option String :=
  match v with
  | some (CtxVal.str s) => some s
  | _ => none

/-! ## Collaborators -/

/-- The notes service client `npb.NotesService`: every call replies with a
pointer and an error. -/
structure NotesService where
  GetNotes : Query → Option NoteList × Option Error
  CreateNote : Note → Option Note × Option Error
  UpdateNote : Note → Option Note × Option Error
  DeleteNote : Note → Option Note × Option Error

/-- The search client `search.NoteSearcher`: `Search` fills the note list that
is passed by reference and replies with an error. -/
structure NoteSearcher where
  Search : SearchQuery → NoteList × Option Error

/-- A publisher `micro.Publisher`: `Publish(ctx, msg)` replies with an error. -/
structure Publisher where
  Publish : Option Note → Option Error

/-- The resolver; `searchClient` is a pointer and may be nil. -/
structure Resolver where
  notesConn : NotesService
  searchClient : Option NoteSearcher
  putSink : Publisher
  updateSink : Publisher
  deleteSink : Publisher

/-- `NewResolver` stores its five arguments. -/
def NewResolver (notesConn : NotesService) (searchClient : Option NoteSearcher)
    (putSink updateSink deleteSink : Publisher) : Resolver :=
  { notesConn := notesConn, searchClient := searchClient, putSink := putSink,
    updateSink := updateSink, deleteSink := deleteSink }

/-- The three publisher fields of the resolver. -/
inductive Sink where
  | put
  | update
  | delete
deriving DecidableEq, Repr

/-- A call issued to a collaborator, with the request that was sent. -/
inductive Event where
  | getNotes (q : Query)
  | createNote (n : Note)
  | updateNote (n : Note)
  | deleteNote (n : Note)
  | search (q : SearchQuery)
  | publish (sink : Sink) (msg : Option Note)
deriving DecidableEq, Repr

/-- How a resolver method ends: it returns, it panics (nil dereference, failed
type assertion), or it reaches the fatal logger call. -/
inductive Outcome (α : Type) where
  | returned (a : α)
  | panicked
  | fatal
deriving DecidableEq, Repr

/-- The collaborator calls of one resolver invocation, in order, and its end. -/
structure Run (α : Type) where
  trace : List Event
  outcome : Outcome α
deriving DecidableEq, Repr

/-- The response adapter: one note pointer. -/
structure NoteResolver where
  Note : Option Note
deriving DecidableEq, Repr

/-- The publish calls of a trace: publisher field and message, in order. -/
def publishCalls (t : List Event) : List (Sink × Option Note) :=
  t.filterMap fun e =>
    match e with
    | Event.publish s m => some (s, m)
    | _ => none

/-! ## Helpers of the source -/

/-- Source `pointerToString`. -/
def pointerToString (point : Option String) : String :=
  match point with
  | none => ""
  | some s => s

/-- Source `ParseFromAndTo`. -/
def ParseFromAndTo (Fromdate Todate : Option Float64) :
    Option Timestamp × Option Timestamp :=
  let toTime : Option Timestamp :=
    match Todate with
    | some t => some { Seconds := int64 t, Nanos := 0 }
    | none => none
  let fromTime : Option Timestamp :=
    match Fromdate with
    | some f => some { Seconds := int64 f, Nanos := 0 }
    | none => none
  (fromTime, toTime)

/-- The loop `for _, x := range xs { acc = append(acc, *x) }` of `Search`
(authors) and `Notes` (ids): every entry is dereferenced, so a nil entry
panics (`none`). -/
def appendDeref (acc : List String) : List (Option String) → Option (List String)
  | [] => some acc
  | some s :: rest => appendDeref (acc ++ [s]) rest
  | none :: _ => none

/-- The loop `for _, x := range xs { if x != nil { acc = append(acc, *x) } }`
of `Notes` (authors). -/
def appendNonNil (acc : List String) : List (Option String) → List String
  | [] => acc
  | some s :: rest => appendNonNil (acc ++ [s]) rest
  | none :: rest => appendNonNil acc rest

/-- The inline conversion of an optional date argument of the mutations:
`0` when nil, `int64(*d)` otherwise. -/
def seconds (d : Option Float64) : Int :=
  match d with
  | none => 0
  | some x => int64 x

/-! ## Arguments of the entry points -/

/-- The argument record of `Search`. -/
structure SearchArgs where
  Query : Option String := none
  Authors : Option (List (Option String)) := none
  Team : Option String := none
  DateCreated : Option Float64 := none
  Todate : Option Float64 := none
  Fromdate : Option Float64 := none
deriving DecidableEq, Repr

/-- The argument record of `Notes`. -/
structure NotesArgs where
  IDs : Option (List (Option String)) := none
  Title : Option String := none
  Authors : Option (List (Option String)) := none
  Team : Option String := none
  DateCreated : Option Float64 := none
  Todate : Option Float64 := none
  Fromdate : Option Float64 := none
  Image : Option String := none
  Tags : Option (List (Option String)) := none
deriving DecidableEq, Repr

/-- The argument record of `CreateNote`. -/
structure CreateNoteArgs where
  ID : Option String := none
  Title : Option String := none
  Body : Option String := none
  Team : Option String := none
  Author : Option String := none
  DateCreated : Option Float64 := none
  DateModified : Option Float64 := none
  Type_ : Option String := none
  Link : Option String := none
  Image : Option String := none
  Tags : Option (List (Option String)) := none
deriving DecidableEq, Repr

/-- The argument record of `DeleteNote`. -/
structure DeleteNoteArgs where
  ID : Option String := none
  Title : Option String := none
  Body : Option String := none
  Team : Option String := none
  Author : Option String := none
  DateCreated : Option Float64 := none
  DateModified : Option Float64 := none
  Type_ : Option String := none
  Link : Option String := none
deriving DecidableEq, Repr

/-- The argument record of `UpdateNote`. -/
structure UpdateNoteArgs where
  ID : Option String := none
  Title : Option String := none
  Body : Option String := none
  Team : Option String := none
  Author : Option String := none
  DateCreated : Option Float64 := none
  DateModified : Option Float64 := none
  Type_ : Option String := none
  Link : Option String := none
  Image : Option String := none
  Tags : Option (List (Option String)) := none
deriving DecidableEq, Repr

/-! ## Entry points -/

/-- Modelled from the spec: `log.Logger.Fatalf` of `pkg/logging`, which is
outside the sources: the fatal log-and-abort; the method ends there, after the
calls in `t`. -/
def Fatalf {α : Type} (t : List Event) : Run α :=
  { trace := t, outcome := Outcome.fatal }

/-- Lines 80-88 of `Search`: the authors slice; `none` is the panic of the
nil dereference `*author`. -/
def Search.authors (Authors : Option (List (Option String))) : Option (List String) :=
  match Authors with
  | some l => appendDeref (List.replicate l.length "") l
  | none => some []

/-- Source `Resolver.Search`. -/
def Search (r : Resolver) (_ctx : Context) (args : SearchArgs) :
    Run (Option (List NoteResolver)) :=
  match args.Query with
  | none => { trace := [], outcome := Outcome.returned none }
  | some _ =>
    match Search.authors args.Authors with
    | none => { trace := [], outcome := Outcome.panicked }
    | some _ =>
      let q := pointerToString args.Query
      match r.searchClient with
      | some client =>
        let query : SearchQuery := { Query := q }
        match client.Search query with
        | (_, some _) => Fatalf [Event.search query]
        | (notes, none) =>
          { trace := [Event.search query],
            outcome := Outcome.returned
              (some (notes.Notes.map fun n => { Note := n })) }
      | none => { trace := [], outcome := Outcome.returned (some []) }

/-- Lines 128-136 of `Notes`: the ids slice; `none` is the panic of the nil
dereference `*id`. -/
def Notes.ids (IDs : Option (List (Option String))) : Option (List String) :=
  match IDs with
  | some l => appendDeref (List.replicate l.length "") l
  | none => some []

/-- Lines 138-149 of `Notes`: the authors slice; `none` is the panic of the
type assertion on the context value. -/
def Notes.authors (ctx : Context) (Authors : Option (List (Option String))) :
    Option (List String) :=
  match Authors with
  | some l => some (appendNonNil (List.replicate l.length "") l)
  | none =>
    match assertString (ctx.Value "email") with
    | some email => some ([] ++ [email])
    | none => none

/-- Lines 128-162 of `Notes`: the backend query built from the arguments;
`none` is a panic while building it. -/
def Notes.query (ctx : Context) (args : NotesArgs) : Option Query :=
  match Notes.ids args.IDs with
  | none => none
  | some ids =>
    match Notes.authors ctx args.Authors with
    | none => none
    | some authors =>
      let title := pointerToString args.Title
      let ft := ParseFromAndTo args.Fromdate args.Todate
      some { IDs := ids, Title := title, Team := "", Authors := authors,
             Todate := ft.2, Fromdate := ft.1 }

/-- Source `Resolver.Notes`. -/
def Notes (r : Resolver) (ctx : Context) (args : NotesArgs) :
    Run (Option (List NoteResolver)) :=
  match Notes.query ctx args with
  | none => { trace := [], outcome := Outcome.panicked }
  | some query =>
    match r.notesConn.GetNotes query with
    | (_, some _) => Fatalf [Event.getNotes query]
    | (none, none) => { trace := [Event.getNotes query], outcome := Outcome.panicked }
    | (some notes, none) =>
      { trace := [Event.getNotes query],
        outcome := Outcome.returned
          (some (notes.Notes.map fun n => { Note := n })) }

/-- Lines 286-289 of `CreateNote`: the author, taken from the context when the
argument is nil or empty; `none` is the panic of the type assertion. -/
def CreateNote.author (ctx : Context) (Author : Option String) : Option String :=
  let author := pointerToString Author
  if author = "" then assertString (ctx.Value "email") else some author

/-- Source `Resolver.CreateNote`. -/
def CreateNote (r : Resolver) (ctx : Context) (args : CreateNoteArgs) :
    Run (NoteResolver × Option Error) :=
  let title := pointerToString args.Title
  let id := pointerToString args.ID
  let body := pointerToString args.Body
  match CreateNote.author ctx args.Author with
  | none => { trace := [], outcome := Outcome.panicked }
  | some author =>
    let noteType := pointerToString args.Type_
    let link := pointerToString args.Link
    let created := seconds args.DateCreated
    let modified := seconds args.DateModified
    let createdTime : Timestamp := { Seconds := created, Nanos := 0 }
    let modifiedTime : Timestamp := { Seconds := modified, Nanos := 0 }
    match args.Image with
    | none => { trace := [], outcome := Outcome.panicked }
    | some image =>
      let input : Note :=
        { Id := id, Title := title, Body := body, Author := author,
          DateCreated := some createdTime, DateModified := some modifiedTime,
          Type_ := noteType, Link := link, Image := image }
      match r.notesConn.CreateNote input with
      | (note, some err) =>
        { trace := [Event.createNote input],
          outcome := Outcome.returned ({ Note := note }, some err) }
      | (note, none) =>
        { trace := [Event.createNote input],
          outcome := Outcome.returned ({ Note := note }, none) }

/-- The note literal `DeleteNote` sends to the notes service (lines 361-369). -/
def DeleteNote.input (args : DeleteNoteArgs) : Note :=
  let title := pointerToString args.Title
  let id := pointerToString args.ID
  let body := pointerToString args.Body
  let author := pointerToString args.Author
  let noteType := pointerToString args.Type_
  let created := seconds args.DateCreated
  let modified := seconds args.DateModified
  let createdTime : Timestamp := { Seconds := created, Nanos := 0 }
  let modifiedTime : Timestamp := { Seconds := modified, Nanos := 0 }
  { Id := id, Title := title, Body := body, Author := author,
    DateCreated := some createdTime, DateModified := some modifiedTime,
    Type_ := noteType }

/-- Source `Resolver.DeleteNote`. -/
def DeleteNote (r : Resolver) (_ctx : Context) (args : DeleteNoteArgs) :
    Run (NoteResolver × Option Error) :=
  let input := DeleteNote.input args
  match r.notesConn.DeleteNote input with
  | (note, some err) =>
    { trace := [Event.deleteNote input],
      outcome := Outcome.returned ({ Note := note }, some err) }
  | (note, none) =>
    match r.deleteSink.Publish note with
    | some _ => Fatalf [Event.deleteNote input, Event.publish Sink.delete note]
    | none =>
      { trace := [Event.deleteNote input, Event.publish Sink.delete note],
        outcome := Outcome.returned ({ Note := note }, none) }

/-- The note `pbNote` that `UpdateNote` builds (lines 396-434). -/
def UpdateNote.pbNote (args : UpdateNoteArgs) : Note :=
  let title := pointerToString args.Title
  let id := pointerToString args.ID
  let body := pointerToString args.Body
  let author := pointerToString args.Author
  let noteType := pointerToString args.Type_
  let link := pointerToString args.Link
  let created := seconds args.DateCreated
  let modified := seconds args.DateModified
  let createdTime : Timestamp := { Seconds := created, Nanos := 0 }
  let modifiedTime : Timestamp := { Seconds := modified, Nanos := 0 }
  let img : String :=
    match args.Image with
    | some image => image
    | none => ""
  { Id := id, Title := title, Body := body, Author := author,
    DateCreated := some createdTime, DateModified := some modifiedTime,
    Type_ := noteType, Link := link, Image := img }

/-- Source `Resolver.UpdateNote`. -/
def UpdateNote (r : Resolver) (_ctx : Context) (args : UpdateNoteArgs) :
    Run (NoteResolver × Option Error) :=
  let pbNote := UpdateNote.pbNote args
  match r.notesConn.UpdateNote pbNote with
  | (note, some err) =>
    { trace := [Event.updateNote pbNote],
      outcome := Outcome.returned ({ Note := note }, some err) }
  | (note, none) =>
    match r.updateSink.Publish (some pbNote) with
    | some _ => Fatalf [Event.updateNote pbNote, Event.publish Sink.update (some pbNote)]
    | none =>
      { trace := [Event.updateNote pbNote, Event.publish Sink.update (some pbNote)],
        outcome := Outcome.returned ({ Note := note }, none) }

/-! ## Truncation toward zero, as a number -/

/-- The integer part of a rational, rounding toward zero: the floor of a
non-negative number, the ceiling of a negative one. -/
def truncTowardZero (v : ℚ) : Int := if 0 ≤ v then ⌊v⌋ else ⌈v⌉

/-- The float values whose integer part fits a Go `int64`. -/
def InInt64Range (x : Float64) : Prop :=
  (minInt64 : ℚ) ≤ x.toRat ∧ x.toRat ≤ (maxInt64 : ℚ)

instance (x : Float64) : Decidable (InInt64Range x) := by
  unfold InInt64Range
  infer_instance

/-! ## Sample collaborators and contexts -/

/-- A notes service that echoes every note and lists no notes. -/
def echoService : NotesService :=
  { GetNotes := fun _ => (some { Notes := [] }, none),
    CreateNote := fun n => (some n, none),
    UpdateNote := fun n => (some n, none),
    DeleteNote := fun n => (some n, none) }

/-- A notes service that stamps the id "srv" on every note it replies with. -/
def stampService : NotesService :=
  { GetNotes := fun _ => (some { Notes := [] }, none),
    CreateNote := fun n => (some { n with Id := "srv" }, none),
    UpdateNote := fun n => (some { n with Id := "srv" }, none),
    DeleteNote := fun n => (some { n with Id := "srv" }, none) }

/-- A notes service whose every call fails with the error "down". -/
def failService : NotesService :=
  { GetNotes := fun _ => (none, some "down"),
    CreateNote := fun _ => (none, some "down"),
    UpdateNote := fun _ => (none, some "down"),
    DeleteNote := fun _ => (none, some "down") }

/-- A publisher that accepts every message. -/
def okSink : Publisher := { Publish := fun _ => none }

/-- A search client that finds one empty note for every query. -/
def oneHitSearcher : NoteSearcher :=
  { Search := fun _ => ({ Notes := [some {}] }, none) }

/-- A resolver over `svc` with no search client. -/
def resolverOf (svc : NotesService) : Resolver :=
  NewResolver svc none okSink okSink okSink

/-- A resolver over the echo service with a search client. -/
def searchResolver : Resolver :=
  NewResolver echoService (some oneHitSearcher) okSink okSink okSink

/-- A context holding the caller identity `e` under "email" and nothing else. -/
def ctxEmail (e : String) : Context :=
  { Value := fun k => if k = "email" then some (CtxVal.str e) else none }

/-- A context holding nothing. -/
def ctxEmpty : Context := { Value := fun _ => none }


/-! ## Truncation of a float -/

theorem Float64.toRat_ofNat (m : Int) (e : Nat) :
    Float64.toRat { mant := m, exp := Int.ofNat e } = ((m * Int.ofNat (2 ^ e) : Int) : ℚ) := by
  simp [Float64.toRat]

theorem Float64.toRat_negSucc (m : Int) (e : Nat) :
    Float64.toRat { mant := m, exp := Int.negSucc e } = (m : ℚ) / ((2 ^ (e + 1) : Nat) : ℚ) := by
  simp only [Float64.toRat, zpow_negSucc, Nat.cast_pow, Nat.cast_ofNat]
  rw [div_eq_mul_inv]

theorem tdiv_eq_truncTowardZero (m : Int) (d : Nat) (hd : 0 < d) :
    Int.tdiv m (Int.ofNat d) = truncTowardZero ((m : ℚ) / (d : ℚ)) := by
  have hdq : (0 : ℚ) < (d : ℚ) := by exact_mod_cast hd
  unfold truncTowardZero
  split_ifs with h
  · have hm : 0 ≤ m := by
      have := (div_nonneg_iff.mp h)
      rcases this with ⟨h1, _⟩ | ⟨_, h2⟩
      · exact_mod_cast h1
      · exact absurd h2 (not_le.mpr hdq)
    rw [Rat.floor_intCast_div_natCast]
    exact Int.tdiv_eq_ediv hm (Int.ofNat_nonneg d)
  · have hm : m < 0 := by
      by_contra hc
      push_neg at hc
      exact h (div_nonneg (by exact_mod_cast hc) hdq.le)
    have key : ⌈(m : ℚ) / (d : ℚ)⌉ = -⌊((-m : Int) : ℚ) / (d : ℚ)⌋ := by
      rw [← Int.ceil_neg]
      congr 1
      push_cast
      ring
    rw [key, Rat.floor_intCast_div_natCast]
    have h2 : Int.tdiv (-m) (Int.ofNat d) = (-m) / (Int.ofNat d) :=
      Int.tdiv_eq_ediv (by omega) (Int.ofNat_nonneg d)
    rw [Int.neg_tdiv] at h2
    have h3 : (Int.ofNat d : Int) = (d : Int) := rfl
    rw [h3] at h2 ⊢
    omega

theorem Float64.trunc_eq (x : Float64) : x.trunc = truncTowardZero x.toRat := by
  obtain ⟨m, e⟩ := x
  cases e with
  | ofNat e =>
    rw [Float64.toRat_ofNat]
    simp only [Float64.trunc, truncTowardZero, Int.floor_intCast, Int.ceil_intCast, ite_self]
  | negSucc e =>
    rw [Float64.toRat_negSucc]
    simp only [Float64.trunc]
    exact tdiv_eq_truncTowardZero m (2 ^ (e + 1)) (Nat.pos_pow_of_pos _ (by decide))


theorem truncTowardZero_bounds (v : ℚ) (a b : Int) (ha : (a : ℚ) ≤ v) (hb : v ≤ (b : ℚ)) :
    a ≤ truncTowardZero v ∧ truncTowardZero v ≤ b := by
  unfold truncTowardZero
  split_ifs with h
  · refine ⟨Int.le_floor.mpr ha, ?_⟩
    have h1 : ((⌊v⌋ : Int) : ℚ) ≤ (b : ℚ) := le_trans (Int.floor_le v) hb
    exact_mod_cast h1
  · refine ⟨?_, Int.ceil_le.mpr hb⟩
    have h1 : (a : ℚ) ≤ ((⌈v⌉ : Int) : ℚ) := le_trans ha (Int.le_ceil v)
    exact_mod_cast h1

theorem int64_eq_truncTowardZero (x : Float64) (h : InInt64Range x) :
    int64 x = truncTowardZero x.toRat := by
  have hb := truncTowardZero_bounds x.toRat minInt64 maxInt64 h.1 h.2
  rw [← Float64.trunc_eq] at hb ⊢
  unfold int64
  rw [if_pos hb]

/-! ## The two normalisation loops -/

theorem appendNonNil_eq (acc : List String) (l : List (Option String)) :
    appendNonNil acc l = acc ++ l.filterMap id := by
  induction l generalizing acc with
  | nil => simp [appendNonNil]
  | cons x rest ih =>
    cases x with
    | none => simp [appendNonNil, ih]
    | some s => simp [appendNonNil, ih]

theorem appendDeref_of_nil_entry (acc : List String) (l : List (Option String))
    (h : none ∈ l) : appendDeref acc l = none := by
  induction l generalizing acc with
  | nil => simp at h
  | cons x rest ih =>
    cases x with
    | none => simp [appendDeref]
    | some s =>
      have hr : none ∈ rest := by simpa using h
      simp [appendDeref, ih _ hr]

theorem appendDeref_of_no_nil_entry (acc : List String) (l : List (Option String))
    (h : none ∉ l) : appendDeref acc l = some (acc ++ l.filterMap id) := by
  induction l generalizing acc with
  | nil => simp [appendDeref]
  | cons x rest ih =>
    cases x with
    | none => simp at h
    | some s =>
      have hr : none ∉ rest := by
        intro hc
        exact h (List.mem_cons_of_mem _ hc)
      simp [appendDeref, ih _ hr]

/-- What the authors block of `Notes` yields for a present list: as many empty
strings as the list has entries, then the non-nil entries in order. -/
theorem Notes.authors_present (ctx : Context) (l : List (Option String)) :
    Notes.authors ctx (some l) = some (List.replicate l.length "" ++ l.filterMap id) := by
  simp [Notes.authors, appendNonNil_eq]

/-- What the ids block of `Notes` yields for a present list without nil entry. -/
theorem Notes.ids_present (l : List (Option String)) (h : none ∉ l) :
    Notes.ids (some l) = some (List.replicate l.length "" ++ l.filterMap id) := by
  simp [Notes.ids, appendDeref_of_no_nil_entry _ _ h]

/-- The ids block of `Notes` panics on a present list with a nil entry. -/
theorem Notes.ids_nil_entry (l : List (Option String)) (h : none ∈ l) :
    Notes.ids (some l) = none := by
  simp [Notes.ids, appendDeref_of_nil_entry _ _ h]

/-! ## Traces of the entry points -/

theorem Notes_trace (r : Resolver) (ctx : Context) (args : NotesArgs) :
    (Notes r ctx args).trace =
      match Notes.query ctx args with
      | none => []
      | some q => [Event.getNotes q] := by
  unfold Notes
  cases hq : Notes.query ctx args with
  | none => rfl
  | some q =>
    simp only
    rcases r.notesConn.GetNotes q with ⟨n, e⟩
    cases n <;> cases e <;> rfl

theorem Notes_of_query_none (r : Resolver) (ctx : Context) (args : NotesArgs)
    (h : Notes.query ctx args = none) :
    Notes r ctx args = { trace := [], outcome := Outcome.panicked } := by
  unfold Notes
  rw [h]


theorem Notes.query_authors_absent (ctx : Context) (args : NotesArgs) (e : String)
    (h : args.Authors = none) (he : ctx.Value "email" = some (CtxVal.str e)) :
    Notes.query ctx args =
      (Notes.ids args.IDs).map fun ids =>
        { IDs := ids, Title := pointerToString args.Title, Team := "", Authors := [e],
          Todate := (ParseFromAndTo args.Fromdate args.Todate).2,
          Fromdate := (ParseFromAndTo args.Fromdate args.Todate).1 } := by
  unfold Notes.query
  cases Notes.ids args.IDs with
  | none => rfl
  | some ids => simp [Notes.authors, h, he, assertString]

theorem Notes.query_no_identity (ctx : Context) (args : NotesArgs)
    (h : args.Authors = none) (he : ∀ e, ctx.Value "email" ≠ some (CtxVal.str e)) :
    Notes.query ctx args = none := by
  unfold Notes.query
  cases Notes.ids args.IDs with
  | none => rfl
  | some ids =>
    have ha : Notes.authors ctx args.Authors = none := by
      rw [h]
      unfold Notes.authors
      cases hv : ctx.Value "email" with
      | none => rfl
      | some v =>
        cases v with
        | str s => exact absurd hv (he s)
        | other => rfl
    simp [ha]

theorem Notes.query_team (ctx : Context) (args : NotesArgs) (q : Query)
    (h : Notes.query ctx args = some q) : q.Team = "" := by
  unfold Notes.query at h
  cases hi : Notes.ids args.IDs with
  | none => simp [hi] at h
  | some ids =>
    cases ha : Notes.authors ctx args.Authors with
    | none => simp [hi, ha] at h
    | some authors =>
      simp [hi, ha] at h
      rw [← h]

theorem Notes.query_congr (ctx : Context) (a b : NotesArgs)
    (hi : a.IDs = b.IDs) (ht : a.Title = b.Title) (ha : a.Authors = b.Authors)
    (hf : a.Fromdate = b.Fromdate) (hto : a.Todate = b.Todate) :
    Notes.query ctx a = Notes.query ctx b := by
  unfold Notes.query
  rw [hi, ht, ha, hf, hto]

/-! ## The mutations, by the reply of the notes service -/

theorem UpdateNote_of_error (r : Resolver) (ctx : Context) (ua : UpdateNoteArgs)
    (n : Option Note) (err : Error)
    (h : r.notesConn.UpdateNote (UpdateNote.pbNote ua) = (n, some err)) :
    UpdateNote r ctx ua =
      { trace := [Event.updateNote (UpdateNote.pbNote ua)],
        outcome := Outcome.returned ({ Note := n }, some err) } := by
  simp only [UpdateNote, h]

theorem UpdateNote_of_success (r : Resolver) (ctx : Context) (ua : UpdateNoteArgs)
    (n : Option Note) (h : r.notesConn.UpdateNote (UpdateNote.pbNote ua) = (n, none)) :
    (UpdateNote r ctx ua).trace =
      [Event.updateNote (UpdateNote.pbNote ua),
        Event.publish Sink.update (some (UpdateNote.pbNote ua))] := by
  simp only [UpdateNote, h]
  cases r.updateSink.Publish (some (UpdateNote.pbNote ua)) <;> rfl

theorem DeleteNote_of_error (r : Resolver) (ctx : Context) (da : DeleteNoteArgs)
    (n : Option Note) (err : Error)
    (h : r.notesConn.DeleteNote (DeleteNote.input da) = (n, some err)) :
    DeleteNote r ctx da =
      { trace := [Event.deleteNote (DeleteNote.input da)],
        outcome := Outcome.returned ({ Note := n }, some err) } := by
  simp only [DeleteNote, h]

theorem DeleteNote_of_success (r : Resolver) (ctx : Context) (da : DeleteNoteArgs)
    (n : Option Note) (h : r.notesConn.DeleteNote (DeleteNote.input da) = (n, none)) :
    (DeleteNote r ctx da).trace =
      [Event.deleteNote (DeleteNote.input da), Event.publish Sink.delete n] := by
  simp only [DeleteNote, h]
  cases r.deleteSink.Publish n <;> rfl

theorem CreateNote_publishCalls (r : Resolver) (ctx : Context) (ca : CreateNoteArgs) :
    publishCalls (CreateNote r ctx ca).trace = [] := by
  unfold CreateNote
  simp only
  cases CreateNote.author ctx ca.Author with
  | none => rfl
  | some a =>
    simp only
    cases ca.Image with
    | none => rfl
    | some image =>
      simp only
      rcases r.notesConn.CreateNote _ with ⟨n, e⟩
      cases e <;> rfl

/-! ## The claims -/

/-- C1 (defect of the code): `createNote(title = "T", body = "B")` with the
caller identity "u@x.com" in the context and no image argument panics on the
nil dereference `*args.Image` (line 316) and issues no backend call, whatever
the resolver. -/
theorem CreateNote_without_image_panics (r : Resolver) :
    CreateNote r (ctxEmail "u@x.com") { Title := some "T", Body := some "B" } =
      { trace := [], outcome := Outcome.panicked } :=
  rfl

/-- What `CreateNote` sends when the image argument is present, the author
argument is absent and the context holds the identity `e`: one create call
with the note below (its `Team` and `Tags` are never filled in). -/
theorem CreateNote_trace_of_image (r : Resolver) (ctx : Context) (args : CreateNoteArgs)
    (e image : String) (ha : args.Author = none) (hi : args.Image = some image)
    (he : ctx.Value "email" = some (CtxVal.str e)) :
    (CreateNote r ctx args).trace =
      [Event.createNote
        { Id := pointerToString args.ID, Title := pointerToString args.Title,
          Body := pointerToString args.Body, Author := e, Team := "",
          DateCreated := some { Seconds := seconds args.DateCreated, Nanos := 0 },
          DateModified := some { Seconds := seconds args.DateModified, Nanos := 0 },
          Type_ := pointerToString args.Type_, Link := pointerToString args.Link,
          Image := image, Tags := [] }] := by
  unfold CreateNote
  simp only [CreateNote.author, ha, hi, he, pointerToString, assertString, if_true]
  rcases r.notesConn.CreateNote _ with ⟨n, err⟩
  cases err <;> rfl

/-- C2 (defect of the code): with `authors = ["b@x.com"]` the backend query of
`Notes` has Authors `["", "b@x.com"]`, and with `authors = [nil]` it has
Authors `[""]`: the slice is made with `len(*args.Authors)` empty strings
(line 140) before the non-nil entries are appended. -/
theorem Notes_authors_present_blanks (r : Resolver) (ctx : Context) :
    (Notes r ctx { Authors := some [some "b@x.com"] }).trace =
        [Event.getNotes { Authors := ["", "b@x.com"] }] ∧
      (Notes r ctx { Authors := some [none] }).trace =
        [Event.getNotes { Authors := [""] }] := by
  constructor <;> rw [Notes_trace] <;> rfl

/-- What the authors block of `Notes` does when the authors argument is
absent.  When the context holds the string `e` under "email" every backend
query has Authors `[e]`, and one query is issued provided the ids block, which
runs first, does not panic; when the context holds no string under "email" the
call panics and issues no backend call. -/
theorem Notes_authors_absent (r : Resolver) (ctx : Context) (args : NotesArgs)
    (h : args.Authors = none) :
    (∀ e, ctx.Value "email" = some (CtxVal.str e) →
      (∀ q, Event.getNotes q ∈ (Notes r ctx args).trace → q.Authors = [e]) ∧
      (∀ ids, Notes.ids args.IDs = some ids →
        ∃ q, (Notes r ctx args).trace = [Event.getNotes q] ∧ q.Authors = [e])) ∧
    ((∀ e, ctx.Value "email" ≠ some (CtxVal.str e)) →
      (Notes r ctx args).outcome = Outcome.panicked ∧ (Notes r ctx args).trace = []) := by
  constructor
  · intro e he
    have hq := Notes.query_authors_absent ctx args e h he
    constructor
    · intro q hmem
      rw [Notes_trace, hq] at hmem
      cases hi : Notes.ids args.IDs with
      | none => simp [hi] at hmem
      | some ids =>
        simp [hi] at hmem
        rw [hmem]
    · intro ids hi
      rw [Notes_trace, hq, hi]
      exact ⟨_, rfl, rfl⟩
  · intro he
    rw [Notes_of_query_none r ctx args (Notes.query_no_identity ctx args h he)]
    exact ⟨rfl, rfl⟩

/-- An instance of `Notes_authors_absent`: with identity "a@x.com" and no ids
one query is issued, with Authors `["a@x.com"]`; the empty context panics
without a backend call. -/
theorem Notes_authors_absent_example :
    (∃ q, (Notes (resolverOf echoService) (ctxEmail "a@x.com") {}).trace = [Event.getNotes q] ∧
        q.Authors = ["a@x.com"]) ∧
      (Notes (resolverOf echoService) ctxEmpty {}).outcome = Outcome.panicked ∧
      (Notes (resolverOf echoService) ctxEmpty {}).trace = [] :=
  ⟨((Notes_authors_absent (resolverOf echoService) (ctxEmail "a@x.com") {} rfl).1
      "a@x.com" rfl).2 [] rfl,
   (Notes_authors_absent (resolverOf echoService) ctxEmpty {} rfl).2
      (by intro e; simp [ctxEmpty])⟩

/-- C3 (defect of the code): `notes(ids = [nil])` without authors argument and
with the caller identity `e` in the context panics on the nil dereference
`*id` (line 132), before the authors block is reached: no backend query is
issued, so none with Authors `[e]`, whatever the resolver and the identity. -/
theorem Notes_authors_absent_nil_id (r : Resolver) (e : String) :
    Notes r (ctxEmail e) { IDs := some [none], Authors := none } =
        { trace := [], outcome := Outcome.panicked } ∧
      ¬ ∃ q, Event.getNotes q ∈
        (Notes r (ctxEmail e) { IDs := some [none], Authors := none }).trace := by
  have h : Notes r (ctxEmail e) { IDs := some [none], Authors := none } =
      { trace := [], outcome := Outcome.panicked } :=
    Notes_of_query_none r _ _ rfl
  refine ⟨h, ?_⟩
  rw [h]
  simp

/-- C4: for boundaries whose integer part fits a signed 64-bit integer,
`ParseFromAndTo` decides each side from its own argument only: the bound is
absent exactly when the argument is, and otherwise it is the instant whose
seconds are the argument truncated toward zero and whose nanoseconds are 0.
Nothing relates the two bounds. -/
theorem ParseFromAndTo_truncates (Fromdate Todate : Option Float64)
    (hf : ∀ x, Fromdate = some x → InInt64Range x)
    (ht : ∀ x, Todate = some x → InInt64Range x) :
    ParseFromAndTo Fromdate Todate =
        (Fromdate.map fun x => { Seconds := truncTowardZero x.toRat, Nanos := 0 },
         Todate.map fun x => { Seconds := truncTowardZero x.toRat, Nanos := 0 }) ∧
      ((ParseFromAndTo Fromdate Todate).1 = none ↔ Fromdate = none) ∧
      ((ParseFromAndTo Fromdate Todate).2 = none ↔ Todate = none) := by
  cases Fromdate with
  | none =>
    cases Todate with
    | none => simp [ParseFromAndTo]
    | some t => simp [ParseFromAndTo, int64_eq_truncTowardZero t (ht t rfl)]
  | some f =>
    cases Todate with
    | none => simp [ParseFromAndTo, int64_eq_truncTowardZero f (hf f rfl)]
    | some t =>
      simp [ParseFromAndTo, int64_eq_truncTowardZero f (hf f rfl),
        int64_eq_truncTowardZero t (ht t rfl)]

/-- Witness of C4: the doubles nearest to 5.9 and 10.1 are in range and give
the instants 5 and 10, which are their values truncated toward zero; an
inverted range is passed through; two absent boundaries give two absent
bounds. -/
theorem ParseFromAndTo_truncates_witness :
    ParseFromAndTo (some { mant := 3321404725185741, exp := -49 })
          (some { mant := 5685794529555251, exp := -49 }) =
        (some { Seconds := 5, Nanos := 0 }, some { Seconds := 10, Nanos := 0 }) ∧
      truncTowardZero (Float64.toRat { mant := 3321404725185741, exp := -49 }) = 5 ∧
      truncTowardZero (Float64.toRat { mant := 5685794529555251, exp := -49 }) = 10 ∧
      ParseFromAndTo (some { mant := 5685794529555251, exp := -49 })
          (some { mant := -3321404725185741, exp := -49 }) =
        (some { Seconds := 10, Nanos := 0 }, some { Seconds := -5, Nanos := 0 }) ∧
      ParseFromAndTo none none = (none, none) := by
  have h := (ParseFromAndTo_truncates (some { mant := 3321404725185741, exp := -49 })
    (some { mant := 5685794529555251, exp := -49 })
    (by
      intro x hx
      cases hx
      constructor <;> norm_num [Float64.toRat, minInt64, maxInt64])
    (by
      intro x hx
      cases hx
      constructor <;> norm_num [Float64.toRat, minInt64, maxInt64])).1
  have e : ParseFromAndTo (some { mant := 3321404725185741, exp := -49 })
      (some { mant := 5685794529555251, exp := -49 }) =
      (some { Seconds := 5, Nanos := 0 }, some { Seconds := 10, Nanos := 0 }) := by decide
  rw [e] at h
  simp only [Option.map_some', Prod.mk.injEq, Option.some.injEq, Timestamp.mk.injEq,
    and_true] at h
  exact ⟨e, h.1.symm, h.2.symm, by decide, by decide⟩

/-- C5: a mutation publishes only after the backend mutation reported success,
and at most once.  `UpdateNote` and `DeleteNote`: when the backend call
succeeds the calls issued are the backend call followed by exactly one publish
call; when it fails the backend call is the only call and the backend error is
returned to the caller.  `CreateNote` never publishes. -/
theorem publish_only_after_success (r : Resolver) (ctx : Context)
    (ua : UpdateNoteArgs) (da : DeleteNoteArgs) (ca : CreateNoteArgs) :
    ((r.notesConn.UpdateNote (UpdateNote.pbNote ua)).2 = none →
        ∃ s m, (UpdateNote r ctx ua).trace =
          [Event.updateNote (UpdateNote.pbNote ua), Event.publish s m]) ∧
      (∀ err, (r.notesConn.UpdateNote (UpdateNote.pbNote ua)).2 = some err →
        (UpdateNote r ctx ua).trace = [Event.updateNote (UpdateNote.pbNote ua)] ∧
        (UpdateNote r ctx ua).outcome = Outcome.returned
          ({ Note := (r.notesConn.UpdateNote (UpdateNote.pbNote ua)).1 }, some err)) ∧
      ((r.notesConn.DeleteNote (DeleteNote.input da)).2 = none →
        ∃ s m, (DeleteNote r ctx da).trace =
          [Event.deleteNote (DeleteNote.input da), Event.publish s m]) ∧
      (∀ err, (r.notesConn.DeleteNote (DeleteNote.input da)).2 = some err →
        (DeleteNote r ctx da).trace = [Event.deleteNote (DeleteNote.input da)] ∧
        (DeleteNote r ctx da).outcome = Outcome.returned
          ({ Note := (r.notesConn.DeleteNote (DeleteNote.input da)).1 }, some err)) ∧
      publishCalls (CreateNote r ctx ca).trace = [] := by
  refine ⟨?_, ?_, ?_, ?_, CreateNote_publishCalls r ctx ca⟩
  · intro h
    rcases hr : r.notesConn.UpdateNote (UpdateNote.pbNote ua) with ⟨n, e⟩
    rw [hr] at h
    cases h
    exact ⟨_, _, UpdateNote_of_success r ctx ua n hr⟩
  · intro err h
    rcases hr : r.notesConn.UpdateNote (UpdateNote.pbNote ua) with ⟨n, e⟩
    rw [hr] at h
    cases h
    rw [UpdateNote_of_error r ctx ua n err hr]
    exact ⟨rfl, rfl⟩
  · intro h
    rcases hr : r.notesConn.DeleteNote (DeleteNote.input da) with ⟨n, e⟩
    rw [hr] at h
    cases h
    exact ⟨_, _, DeleteNote_of_success r ctx da n hr⟩
  · intro err h
    rcases hr : r.notesConn.DeleteNote (DeleteNote.input da) with ⟨n, e⟩
    rw [hr] at h
    cases h
    rw [DeleteNote_of_error r ctx da n err hr]
    exact ⟨rfl, rfl⟩

/-- Witness of C5: over a notes service that succeeds both mutations are
followed by one publish call; over one that fails none is issued and the error
"down" reaches the caller. -/
theorem publish_only_after_success_witness :
    (∃ s m, (UpdateNote (resolverOf stampService) ctxEmpty { ID := some "1" }).trace =
        [Event.updateNote (UpdateNote.pbNote { ID := some "1" }), Event.publish s m]) ∧
      ((UpdateNote (resolverOf failService) ctxEmpty { ID := some "1" }).trace =
          [Event.updateNote (UpdateNote.pbNote { ID := some "1" })] ∧
        (UpdateNote (resolverOf failService) ctxEmpty { ID := some "1" }).outcome =
          Outcome.returned ({ Note := none }, some "down")) ∧
      (∃ s m, (DeleteNote (resolverOf stampService) ctxEmpty { ID := some "1" }).trace =
        [Event.deleteNote (DeleteNote.input { ID := some "1" }), Event.publish s m]) ∧
      ((DeleteNote (resolverOf failService) ctxEmpty { ID := some "1" }).trace =
          [Event.deleteNote (DeleteNote.input { ID := some "1" })] ∧
        (DeleteNote (resolverOf failService) ctxEmpty { ID := some "1" }).outcome =
          Outcome.returned ({ Note := none }, some "down")) :=
  ⟨(publish_only_after_success (resolverOf stampService) ctxEmpty
      { ID := some "1" } { ID := some "1" } {}).1 rfl,
   (publish_only_after_success (resolverOf failService) ctxEmpty
      { ID := some "1" } { ID := some "1" } {}).2.1 "down" rfl,
   (publish_only_after_success (resolverOf stampService) ctxEmpty
      { ID := some "1" } { ID := some "1" } {}).2.2.1 rfl,
   (publish_only_after_success (resolverOf failService) ctxEmpty
      { ID := some "1" } { ID := some "1" } {}).2.2.2.1 "down" rfl⟩

/-- C6: after a successful backend mutation, `UpdateNote` publishes exactly
the request note built from the normalised arguments (each string argument or
the empty string, each date truncated to whole seconds or 0, Team and Tags
empty), which is the value it sent to the backend, on the update publisher
only and whatever note the backend replied with; `DeleteNote` publishes exactly
the note the backend replied with to its request (id, title, body, author,
type and dates, no link), on the delete publisher only. -/
theorem published_note (r : Resolver) (ctx : Context)
    (ua : UpdateNoteArgs) (da : DeleteNoteArgs) :
    (∀ req : Note,
        req =
          { Id := ua.ID.getD "", Title := ua.Title.getD "", Body := ua.Body.getD "",
            Author := ua.Author.getD "", Team := "",
            DateCreated := some { Seconds := (ua.DateCreated.map int64).getD 0, Nanos := 0 },
            DateModified := some { Seconds := (ua.DateModified.map int64).getD 0, Nanos := 0 },
            Type_ := ua.Type_.getD "", Link := ua.Link.getD "",
            Image := ua.Image.getD "", Tags := [] } →
        (r.notesConn.UpdateNote req).2 = none →
        publishCalls (UpdateNote r ctx ua).trace = [(Sink.update, some req)] ∧
          (UpdateNote r ctx ua).trace =
            [Event.updateNote req, Event.publish Sink.update (some req)]) ∧
      (∀ req : Note,
        req =
          { Id := da.ID.getD "", Title := da.Title.getD "", Body := da.Body.getD "",
            Author := da.Author.getD "", Team := "",
            DateCreated := some { Seconds := (da.DateCreated.map int64).getD 0, Nanos := 0 },
            DateModified := some { Seconds := (da.DateModified.map int64).getD 0, Nanos := 0 },
            Type_ := da.Type_.getD "", Link := "", Image := "", Tags := [] } →
        (r.notesConn.DeleteNote req).2 = none →
        publishCalls (DeleteNote r ctx da).trace =
            [(Sink.delete, (r.notesConn.DeleteNote req).1)] ∧
          (DeleteNote r ctx da).trace =
            [Event.deleteNote req,
              Event.publish Sink.delete (r.notesConn.DeleteNote req).1]) := by
  constructor
  · intro req hreq h
    have hpb : UpdateNote.pbNote ua = req := by
      rw [hreq]
      obtain ⟨id, title, body, team, author, dc, dm, ty, link, image, tags⟩ := ua
      cases id <;> cases title <;> cases body <;> cases author <;> cases dc <;>
        cases dm <;> cases ty <;> cases link <;> cases image <;> rfl
    rcases hr : r.notesConn.UpdateNote req with ⟨n, e⟩
    rw [hr] at h
    cases h
    rw [← hpb] at hr ⊢
    rw [UpdateNote_of_success r ctx ua n hr]
    exact ⟨rfl, rfl⟩
  · intro req hreq h
    have hin : DeleteNote.input da = req := by
      rw [hreq]
      obtain ⟨id, title, body, team, author, dc, dm, ty, link⟩ := da
      cases id <;> cases title <;> cases body <;> cases author <;> cases dc <;>
        cases dm <;> cases ty <;> rfl
    rcases hr : r.notesConn.DeleteNote req with ⟨n, e⟩
    rw [hr] at h
    cases h
    rw [← hin] at hr ⊢
    rw [DeleteNote_of_success r ctx da n hr]
    exact ⟨rfl, rfl⟩

/-- Witness of C6: the notes service replies with the request note restamped
with the id "srv".  `updateNote(id = "1", title = "T2", dateCreated = 5.9)`
publishes the request note (id "1", title "T2", created at second 5) on the
update publisher, not the reply; `deleteNote(id = "1", link = "l")` publishes
the replied note (id "srv") on the delete publisher, not the request. -/
theorem published_note_witness :
    (publishCalls (UpdateNote (resolverOf stampService) ctxEmpty
          { ID := some "1", Title := some "T2",
            DateCreated := some { mant := 3321404725185741, exp := -49 } }).trace =
        [(Sink.update,
          some { Id := "1", Title := "T2",
                 DateCreated := some { Seconds := 5, Nanos := 0 },
                 DateModified := some { Seconds := 0, Nanos := 0 } })] ∧
      (UpdateNote (resolverOf stampService) ctxEmpty
          { ID := some "1", Title := some "T2",
            DateCreated := some { mant := 3321404725185741, exp := -49 } }).trace =
        [Event.updateNote
            { Id := "1", Title := "T2",
              DateCreated := some { Seconds := 5, Nanos := 0 },
              DateModified := some { Seconds := 0, Nanos := 0 } },
          Event.publish Sink.update
            (some { Id := "1", Title := "T2",
                    DateCreated := some { Seconds := 5, Nanos := 0 },
                    DateModified := some { Seconds := 0, Nanos := 0 } })]) ∧
      (publishCalls (DeleteNote (resolverOf stampService) ctxEmpty
          { ID := some "1", Link := some "l" }).trace =
        [(Sink.delete,
          some { Id := "srv",
                 DateCreated := some { Seconds := 0, Nanos := 0 },
                 DateModified := some { Seconds := 0, Nanos := 0 } })] ∧
      (DeleteNote (resolverOf stampService) ctxEmpty
          { ID := some "1", Link := some "l" }).trace =
        [Event.deleteNote
            { Id := "1",
              DateCreated := some { Seconds := 0, Nanos := 0 },
              DateModified := some { Seconds := 0, Nanos := 0 } },
          Event.publish Sink.delete
            (some { Id := "srv",
                    DateCreated := some { Seconds := 0, Nanos := 0 },
                    DateModified := some { Seconds := 0, Nanos := 0 } })]) ∧
      (UpdateNote (resolverOf stampService) ctxEmpty
          { ID := some "1", Title := some "T2",
            DateCreated := some { mant := 3321404725185741, exp := -49 } }).outcome =
        Outcome.returned
          ({ Note := some { Id := "srv", Title := "T2",
                            DateCreated := some { Seconds := 5, Nanos := 0 },
                            DateModified := some { Seconds := 0, Nanos := 0 } } }, none) :=
  ⟨(published_note (resolverOf stampService) ctxEmpty
      { ID := some "1", Title := some "T2",
        DateCreated := some { mant := 3321404725185741, exp := -49 } }
      { ID := some "1", Link := some "l" }).1
      { Id := "1", Title := "T2",
        DateCreated := some { Seconds := 5, Nanos := 0 },
        DateModified := some { Seconds := 0, Nanos := 0 } } (by decide) rfl,
   (published_note (resolverOf stampService) ctxEmpty
      { ID := some "1", Title := some "T2",
        DateCreated := some { mant := 3321404725185741, exp := -49 } }
      { ID := some "1", Link := some "l" }).2
      { Id := "1",
        DateCreated := some { Seconds := 0, Nanos := 0 },
        DateModified := some { Seconds := 0, Nanos := 0 } } (by decide) rfl,
   by decide⟩

/-- C7, as stated, fails: with no query argument `Search` returns the nil list
pointer (line 77), which is not the empty list that the other no-result path
returns (lines 110-111). -/
theorem Search_query_absent_not_empty_list :
    (Search searchResolver ctxEmpty {}).outcome = Outcome.returned none ∧
      (Search searchResolver ctxEmpty {}).outcome ≠ Outcome.returned (some []) := by
  decide

/-- C7, amended: in every `Search` call whose query argument is absent,
whatever the other arguments and whether or not a search client is configured,
the call returns the nil list pointer (no list at all) and issues no backend
call. -/
theorem Search_query_absent (r : Resolver) (ctx : Context) (args : SearchArgs)
    (h : args.Query = none) :
    Search r ctx args = { trace := [], outcome := Outcome.returned none } := by
  unfold Search
  rw [h]

/-- Witness of C7 (amended): a resolver with a search client, an authors list
holding a nil entry and a team. -/
theorem Search_query_absent_witness :
    Search searchResolver ctxEmpty { Authors := some [none], Team := some "t" } =
      { trace := [], outcome := Outcome.returned none } :=
  Search_query_absent searchResolver ctxEmpty { Authors := some [none], Team := some "t" } rfl

/-- C8 (defect of the code): on a resolver without search client,
`search(query = "x", authors = [nil])` panics on the nil dereference `*author`
(line 84), whatever the notes service, the publishers and the context; with
`authors = ["a"]` the same call returns the empty list. -/
theorem Search_nil_author_panics (svc : NotesService) (p q s : Publisher) (ctx : Context) :
    Search (NewResolver svc none p q s) ctx { Query := some "x", Authors := some [none] } =
        { trace := [], outcome := Outcome.panicked } ∧
      Search (NewResolver svc none p q s) ctx { Query := some "x", Authors := some [some "a"] } =
        { trace := [], outcome := Outcome.returned (some []) } :=
  ⟨rfl, rfl⟩

/-- C9 (defect of the code): `notes(ids = [nil])` panics on the nil dereference
`*id` (line 132) and issues no backend call; `notes(ids = ["1"])` sends the
IDs `["", "1"]`, the slice being made with `len(*args.IDs)` empty strings
(line 130) before the entries are appended. -/
theorem Notes_ids_nil_entry_panics (r : Resolver) :
    Notes r (ctxEmail "a@x.com") { IDs := some [none] } =
        { trace := [], outcome := Outcome.panicked } ∧
      (Notes r (ctxEmail "a@x.com") { IDs := some [some "1"] }).trace =
        [Event.getNotes { IDs := ["", "1"], Authors := ["a@x.com"] }] := by
  constructor
  · exact Notes_of_query_none r _ _ rfl
  · rw [Notes_trace]
    rfl

/-- C10: two `Notes` calls that agree on ids, title, authors, fromdate, todate
and on the context issue the same backend query and end the same way, whatever
their team, dateCreated, image and tags arguments; and every backend query of
a `Notes` call has the empty string as Team. -/
theorem Notes_ignores_team (r : Resolver) (ctx : Context) (a b : NotesArgs)
    (hi : a.IDs = b.IDs) (ht : a.Title = b.Title) (ha : a.Authors = b.Authors)
    (hf : a.Fromdate = b.Fromdate) (hto : a.Todate = b.Todate) :
    Notes r ctx a = Notes r ctx b ∧
      (∀ q, Event.getNotes q ∈ (Notes r ctx a).trace → q.Team = "") := by
  constructor
  · unfold Notes
    rw [Notes.query_congr ctx a b hi ht ha hf hto]
  · intro q hq
    rw [Notes_trace] at hq
    cases hquery : Notes.query ctx a with
    | none => simp [hquery] at hq
    | some q0 =>
      simp [hquery] at hq
      rw [hq]
      exact Notes.query_team ctx a q0 hquery

/-- Witness of C10: a call with team, dateCreated, image and tags and a call
without them send the same query, whose Team is empty. -/
theorem Notes_ignores_team_witness :
    Notes (resolverOf echoService) (ctxEmail "a@x.com")
        { Title := some "t", Team := some "eng", DateCreated := some { mant := 7, exp := 0 },
          Image := some "i", Tags := some [some "x"] } =
      Notes (resolverOf echoService) (ctxEmail "a@x.com") { Title := some "t" } ∧
    (∀ q, Event.getNotes q ∈
        (Notes (resolverOf echoService) (ctxEmail "a@x.com")
          { Title := some "t", Team := some "eng", DateCreated := some { mant := 7, exp := 0 },
            Image := some "i", Tags := some [some "x"] }).trace → q.Team = "") ∧
    (Notes (resolverOf echoService) (ctxEmail "a@x.com")
        { Title := some "t", Team := some "eng", DateCreated := some { mant := 7, exp := 0 },
          Image := some "i", Tags := some [some "x"] }).trace =
      [Event.getNotes { Title := "t", Authors := ["a@x.com"] }] :=
  ⟨(Notes_ignores_team (resolverOf echoService) (ctxEmail "a@x.com")
      { Title := some "t", Team := some "eng", DateCreated := some { mant := 7, exp := 0 },
        Image := some "i", Tags := some [some "x"] } { Title := some "t" }
      rfl rfl rfl rfl rfl).1,
   (Notes_ignores_team (resolverOf echoService) (ctxEmail "a@x.com")
      { Title := some "t", Team := some "eng", DateCreated := some { mant := 7, exp := 0 },
        Image := some "i", Tags := some [some "x"] } { Title := some "t" }
      rfl rfl rfl rfl rfl).2,
   by decide⟩

end Gateway
